import Mathlib

/-!
Verification of the Focara waitlist service.

Shallow embedding of the registration core of the repository:
  * `src/shared/schema.ts` — the two tables (`users`, `waitlist_registrations`)
    and the drizzle-zod insert schema picked down to firstName/lastName/email;
  * `src/unnamed/part_000` (the `DatabaseStorage` class) — lookup-by-email,
    insert with a unique constraint on email, and the row count;
  * `src/server/routes.ts` — the `POST /api/waitlist` and
    `GET /api/waitlist/count` handlers with their try/catch boundaries.

The database state is the two tables. Server-generated values
(`gen_random_uuid()` ids and `defaultNow()` timestamps) are modelled by a
deterministic fresh value derived from the table size: no delete or update
path exists anywhere in the source, so the table only grows and these stand-ins
are pairwise distinct, which is all the source relies on.
-/

/-- JSON values, as delivered by the body parser into `req.body` and as built
by `res.json(...)` in `routes.ts`. -/
inductive JsonVal : Type
  | str (s : String)
  | num (n : Int)
  | jbool (b : Bool)
  | null
  | arr (elems : List JsonVal)
  | obj (kvs : List (String × JsonVal))

/-- Key list of a JSON object (empty for non-objects). -/
def JsonVal.objKeys : JsonVal → List String
  | JsonVal.obj kvs => kvs.map Prod.fst
  | _ => []

/-- A row of the `users` table (`schema.ts`): id, unique username, password. -/
structure User : Type where
  id : String
  username : String
  password : String
deriving DecidableEq

/-- A row of the `waitlist_registrations` table (`schema.ts`): generated id,
first_name, last_name, unique email, created_at timestamp. -/
structure Registration : Type where
  id : String
  firstName : String
  lastName : String
  email : String
  createdAt : Nat
deriving DecidableEq

/-- The persisted database state: exactly the two tables of `schema.ts`. -/
structure State : Type where
  users : List User
  regs : List Registration
deriving DecidableEq

/-- The empty database. -/
def State.empty : State := ⟨[], []⟩

/-- Parsed output of `insertWaitlistRegistrationSchema`: the three columns
picked in `schema.ts` (`.pick({firstName, lastName, email})`). -/
structure InsertWaitlistRegistration : Type where
  firstName : String
  lastName : String
  email : String
deriving DecidableEq

/-- The zod check for one required string field.  `createInsertSchema` maps a
`text().notNull()` column to `z.string()`: any string value passes (the empty
string included — no `.min(1)` and no `.email()` refinement exists in the
server-side schema); a missing key or a non-string value is an issue reported
at that key's path. -/
def zodStringField (kvs : List (String × JsonVal)) (key : String) :
    Except String String :=
  match kvs.lookup key with
  | some (JsonVal.str s) => Except.ok s
  | some _ => Except.error key
  | none => Except.error key

/-- The issue list contributed by one field check (zod collects all issues;
an issue is abstracted to the path of the failing field). -/
def fieldIssues : Except String String → List String
  | Except.ok _ => []
  | Except.error k => [k]

/-- `insertWaitlistRegistrationSchema.safeParse(req.body)`: requires an object
whose `firstName`, `lastName` and `email` entries are strings; unknown keys
are stripped (zod's default object mode); a non-object body is one issue at
the root path, written here as `""`. -/
def insertWaitlistRegistrationSafeParse (body : JsonVal) :
    Except (List String) InsertWaitlistRegistration :=
  match body with
  | JsonVal.obj kvs =>
    let rf := zodStringField kvs "firstName"
    let rl := zodStringField kvs "lastName"
    let re := zodStringField kvs "email"
    match rf, rl, re with
    | Except.ok f, Except.ok l, Except.ok e => Except.ok ⟨f, l, e⟩
    | _, _, _ => Except.error (fieldIssues rf ++ fieldIssues rl ++ fieldIssues re)
  | _ => Except.error [""]

/-- An error thrown by a store operation.  Postgres reports a unique-constraint
violation with code `23505`. -/
structure DbError : Type where
  message : String
  code : String
deriving DecidableEq

/-- The unique-constraint violation raised by the `email` column's
`.unique()` constraint. -/
def uniqueViolation : DbError :=
  ⟨"duplicate key value violates unique constraint", "23505"⟩

/-- `DatabaseStorage.getWaitlistRegistrationByEmail`: select the rows whose
email column equals the argument, destructure the first (`const [registration]
= ...`), and return it, or `undefined` when no row matches. -/
def getWaitlistRegistrationByEmail (s : State) (email : String) :
    Option Registration :=
  (s.regs.filter (fun r => r.email == email)).head?

/-- `gen_random_uuid()`: the server-generated opaque id of the next row. -/
def genId (s : State) : String := "uuid-" ++ toString s.regs.length

/-- `defaultNow()`: the insert-time timestamp of the next row. -/
def nowOf (s : State) : Nat := s.regs.length

/-- `DatabaseStorage.createWaitlistRegistration`: insert one row carrying the
three supplied columns plus generated id and timestamp, returning the inserted
row.  The `.unique()` constraint on email makes the insert throw a
unique-violation when a row with this email already exists. -/
def createWaitlistRegistration (s : State) (ins : InsertWaitlistRegistration) :
    Except DbError (Registration × State) :=
  if s.regs.any (fun r => r.email == ins.email) then
    Except.error uniqueViolation
  else
    let reg : Registration :=
      ⟨genId s, ins.firstName, ins.lastName, ins.email, nowOf s⟩
    Except.ok (reg, ⟨s.users, s.regs ++ [reg]⟩)

/-- JavaScript `x || d` specialised to an optional number: `undefined` and `0`
are falsy, so both fall through to the default. -/
def jsOrNat : Option Nat → Nat → Nat
  | none, d => d
  | some 0, d => d
  | some n, _ => n

/-- `DatabaseStorage.getWaitlistCount`: `select({count: count()})` yields a
single row holding the number of registration rows; the method returns
`result[0]?.count || 0`. -/
def getWaitlistCount (s : State) : Nat :=
  jsOrNat [s.regs.length].head? 0

/-- An HTTP response: status code and JSON body, as produced by
`res.status(...).json(...)`. -/
structure Response : Type where
  status : Nat
  body : JsonVal

/-- The 400 response of `routes.ts`: message plus the list of issues. -/
def validationFailedResponse (issues : List String) : Response :=
  ⟨400, JsonVal.obj [("message", JsonVal.str "Validation failed"),
                     ("errors", JsonVal.arr (issues.map JsonVal.str))]⟩

/-- The 409 response of `routes.ts`. -/
def conflictResponse : Response :=
  ⟨409, JsonVal.obj
    [("message", JsonVal.str "This email is already registered for the waitlist")]⟩

/-- The 500 response of `routes.ts`: a fixed message carrying no detail of the
underlying error. -/
def internalErrorResponse : Response :=
  ⟨500, JsonVal.obj [("message", JsonVal.str "Internal server error")]⟩

/-- The `registration` object of the 201 response, built field-by-field in
`routes.ts` from the inserted row — id, firstName, lastName, email, and
nothing else. -/
def registrationJson (reg : Registration) : JsonVal :=
  JsonVal.obj
    [("id", JsonVal.str reg.id),
     ("firstName", JsonVal.str reg.firstName),
     ("lastName", JsonVal.str reg.lastName),
     ("email", JsonVal.str reg.email)]

/-- The 201 response of `routes.ts`: the success message and the
`registration` object. -/
def createdResponse (reg : Registration) : Response :=
  ⟨201, JsonVal.obj
    [("message", JsonVal.str "Successfully added to waitlist"),
     ("registration", registrationJson reg)]⟩

/-- The `POST /api/waitlist` handler of `routes.ts` over the deterministic
store: validate, pre-check for a duplicate email, insert, respond; any store
throw lands in the surrounding catch and yields the generic 500. -/
def postWaitlist (s : State) (body : JsonVal) : Response × State :=
  match insertWaitlistRegistrationSafeParse body with
  | Except.error issues => (validationFailedResponse issues, s)
  | Except.ok d =>
    match getWaitlistRegistrationByEmail s d.email with
    | some _ => (conflictResponse, s)
    | none =>
      match createWaitlistRegistration s d with
      | Except.error _ => (internalErrorResponse, s)
      | Except.ok (reg, s1) => (createdResponse reg, s1)

/-- The `GET /api/waitlist/count` handler of `routes.ts` over the
deterministic store. -/
def getCountRoute (s : State) : Response × State :=
  (⟨200, JsonVal.obj [("count", JsonVal.num (Int.ofNat (getWaitlistCount s)))]⟩, s)

/-- Outcome of one store call in the faulty model: either the value it
resolved to, or the error it threw. -/
inductive StoreOutcome (α : Type) : Type
  | ok (a : α)
  | threw (e : DbError)

/-- The `POST /api/waitlist` handler with the outcomes of its two store calls
supplied explicitly, modelling database faults and races (a competing insert
committing between the pre-check and the insert makes the insert throw the
unique-violation even though the pre-check saw no row).  A throw from either
call propagates to the handler's single catch block, which answers with the
generic 500 — the catch does not inspect the error. -/
def postWaitlistWith (body : JsonVal)
    (findRes : StoreOutcome (Option Registration))
    (insertRes : StoreOutcome Registration) : Response :=
  match insertWaitlistRegistrationSafeParse body with
  | Except.error issues => validationFailedResponse issues
  | Except.ok _ =>
    match findRes with
    | StoreOutcome.threw _ => internalErrorResponse
    | StoreOutcome.ok (some _) => conflictResponse
    | StoreOutcome.ok none =>
      match insertRes with
      | StoreOutcome.threw _ => internalErrorResponse
      | StoreOutcome.ok reg => createdResponse reg

/-- The `GET /api/waitlist/count` handler with its store call's outcome
supplied explicitly: a throw is caught and answered with the generic 500. -/
def getCountWith (res : StoreOutcome Nat) : Response :=
  match res with
  | StoreOutcome.ok n =>
    ⟨200, JsonVal.obj [("count", JsonVal.num (Int.ofNat n))]⟩
  | StoreOutcome.threw _ => internalErrorResponse

/-- Database states reachable from the empty database through the two
registered routes. -/
inductive Reachable : State → Prop
  | init : Reachable State.empty
  | post (s : State) (body : JsonVal) :
      Reachable s → Reachable (postWaitlist s body).2
  | countGet (s : State) :
      Reachable s → Reachable (getCountRoute s).2

/-- The email-uniqueness invariant: the registration table holds at most one
row per email value. -/
def emailsNodup (s : State) : Prop :=
  (s.regs.map Registration.email).Nodup

/-! ## Shared lemmas about the store operations -/

/-- The by-email lookup misses exactly when no row carries that email. -/
theorem getWaitlistRegistrationByEmail_eq_none_iff (s : State) (e : String) :
    getWaitlistRegistrationByEmail s e = none ↔ ∀ r ∈ s.regs, r.email ≠ e := by
  simp [getWaitlistRegistrationByEmail, List.head?_eq_none_iff,
    List.filter_eq_nil_iff]

/-- A fresh-email insert appends exactly one row, carrying the three supplied
columns plus the generated id and timestamp. -/
theorem createWaitlistRegistration_fresh (s : State)
    (d : InsertWaitlistRegistration) (hf : ∀ r ∈ s.regs, r.email ≠ d.email) :
    createWaitlistRegistration s d =
      Except.ok (⟨genId s, d.firstName, d.lastName, d.email, nowOf s⟩,
        ⟨s.users, s.regs ++ [⟨genId s, d.firstName, d.lastName, d.email, nowOf s⟩]⟩) := by
  have hany : s.regs.any (fun r => r.email == d.email) = false := by
    simp only [List.any_eq_false, beq_iff_eq]
    exact hf
  simp [createWaitlistRegistration, hany]

/-- Run of the POST handler on a payload that parses and whose email is not in
the table: the 201 branch, appending the one new row. -/
theorem postWaitlist_fresh (s : State) (body : JsonVal)
    (d : InsertWaitlistRegistration)
    (hp : insertWaitlistRegistrationSafeParse body = Except.ok d)
    (hf : ∀ r ∈ s.regs, r.email ≠ d.email) :
    postWaitlist s body =
      (createdResponse ⟨genId s, d.firstName, d.lastName, d.email, nowOf s⟩,
       ⟨s.users, s.regs ++ [⟨genId s, d.firstName, d.lastName, d.email, nowOf s⟩]⟩) := by
  have hnone : getWaitlistRegistrationByEmail s d.email = none :=
    (getWaitlistRegistrationByEmail_eq_none_iff s d.email).mpr hf
  simp [postWaitlist, hp, hnone, createWaitlistRegistration_fresh s d hf]

/-- Run of the POST handler on a payload that parses and whose email is
already in the table: the 409 branch, leaving the state untouched. -/
theorem postWaitlist_dup (s : State) (body : JsonVal)
    (d : InsertWaitlistRegistration)
    (hp : insertWaitlistRegistrationSafeParse body = Except.ok d)
    (hdup : ∃ r ∈ s.regs, r.email = d.email) :
    postWaitlist s body = (conflictResponse, s) := by
  have hne : getWaitlistRegistrationByEmail s d.email ≠ none := by
    intro hn
    obtain ⟨r, hr, he⟩ := hdup
    exact (getWaitlistRegistrationByEmail_eq_none_iff s d.email).mp hn r hr he
  obtain ⟨r2, hr2⟩ := Option.ne_none_iff_exists'.mp hne
  simp [postWaitlist, hp, hr2]

/-- Run of the POST handler on a body the schema rejects: the 400 branch,
before any store access, leaving the state untouched. -/
theorem postWaitlist_invalid (s : State) (body : JsonVal) (issues : List String)
    (hp : insertWaitlistRegistrationSafeParse body = Except.error issues) :
    postWaitlist s body = (validationFailedResponse issues, s) := by
  simp [postWaitlist, hp]

/-- The count the store reports is the length of the registration table
(`result[0]?.count || 0` collapses to the row count, `0` included). -/
theorem getWaitlistCount_eq_length (s : State) :
    getWaitlistCount s = s.regs.length := by
  unfold getWaitlistCount
  cases hl : s.regs.length with
  | zero => simp [jsOrNat, hl]
  | succ n => simp [jsOrNat, hl]

/-- A successful zod string check reports the looked-up string entry. -/
theorem zodStringField_ok (kvs : List (String × JsonVal)) (k str : String)
    (h : zodStringField kvs k = Except.ok str) :
    kvs.lookup k = some (JsonVal.str str) := by
  unfold zodStringField at h
  cases hl : kvs.lookup k with
  | none => rw [hl] at h; exact absurd h (by simp)
  | some v =>
    rw [hl] at h
    cases v <;> simp_all

/-- A key whose entry is missing or not a string fails the zod string check
with an issue at that key. -/
theorem zodStringField_error (kvs : List (String × JsonVal)) (k : String)
    (h : ¬ ∃ str, kvs.lookup k = some (JsonVal.str str)) :
    zodStringField kvs k = Except.error k := by
  unfold zodStringField
  cases hl : kvs.lookup k with
  | none => rfl
  | some v =>
    cases v with
    | str s2 => exact absurd ⟨s2, hl⟩ h
    | num n => rfl
    | jbool b => rfl
    | null => rfl
    | arr es => rfl
    | obj kvs2 => rfl

/-! ## Concrete request fixtures -/

/-- The spec's worked example payload, as a JSON object entry list. -/
def adaKvs : List (String × JsonVal) :=
  [("firstName", JsonVal.str "Ada"),
   ("lastName", JsonVal.str "Lovelace"),
   ("email", JsonVal.str "ada@example.com")]

/-- The spec's worked example payload, as the request body. -/
def adaBody : JsonVal := JsonVal.obj adaKvs

/-- The example payload with one extra, unknown key appended. -/
def adaExtraKvs : List (String × JsonVal) :=
  adaKvs ++ [("admin", JsonVal.jbool true)]

/-- The parsed form of the example payload. -/
def adaIns : InsertWaitlistRegistration := ⟨"Ada", "Lovelace", "ada@example.com"⟩

/-- The row the example payload inserts into the empty database. -/
def adaRow : Registration := ⟨"uuid-0", "Ada", "Lovelace", "ada@example.com", 0⟩

/-- A store fault unrelated to any constraint (the database is unreachable). -/
def dbDown : DbError := ⟨"connection refused", "08001"⟩

/-! ## Claim theorems -/

/-- C7: `count()` returns the total number of registration rows (0 on an
empty table, never absent), and `GET /api/waitlist/count` returns that value
verbatim with status 200, leaving the state untouched. -/
theorem focara_c7_count_verbatim (s : State) :
    getWaitlistCount s = s.regs.length ∧
    getWaitlistCount ⟨s.users, []⟩ = 0 ∧
    getCountRoute s =
      (⟨200, JsonVal.obj [("count", JsonVal.num (Int.ofNat (getWaitlistCount s)))]⟩, s) :=
  ⟨getWaitlistCount_eq_length s, rfl, rfl⟩

/-- C9: neither handler reads or writes the `users` table — the POST handler
leaves `users` unchanged in every branch, and the count handler leaves the
whole state unchanged. -/
theorem focara_c9_users_untouched (s : State) (body : JsonVal) :
    (postWaitlist s body).2.users = s.users ∧ (getCountRoute s).2 = s := by
  refine ⟨?_, rfl⟩
  cases hp : insertWaitlistRegistrationSafeParse body with
  | error issues => rw [postWaitlist_invalid s body issues hp]
  | ok d =>
    by_cases hdup : ∃ r ∈ s.regs, r.email = d.email
    · rw [postWaitlist_dup s body d hp hdup]
    · push_neg at hdup
      rw [postWaitlist_fresh s body d hp hdup]

/-- C6: every error thrown by a store call — the duplicate pre-check, the
insert, or the count — is caught at the handler boundary and answered with
the fixed generic 500 response, which is independent of the thrown error and
so carries none of its detail. -/
theorem focara_c6_store_errors_500 (body : JsonVal)
    (d : InsertWaitlistRegistration) (e : DbError)
    (insertRes : StoreOutcome Registration)
    (hp : insertWaitlistRegistrationSafeParse body = Except.ok d) :
    postWaitlistWith body (StoreOutcome.threw e) insertRes = internalErrorResponse ∧
    postWaitlistWith body (StoreOutcome.ok none) (StoreOutcome.threw e) = internalErrorResponse ∧
    getCountWith (StoreOutcome.threw e) = internalErrorResponse := by
  refine ⟨?_, ?_, rfl⟩ <;> simp [postWaitlistWith, hp]

/-- Witness for C6 at the example payload and a concrete connection fault. -/
theorem focara_c6_store_errors_500_witness :
    postWaitlistWith adaBody (StoreOutcome.threw dbDown) (StoreOutcome.ok adaRow) = internalErrorResponse ∧
    postWaitlistWith adaBody (StoreOutcome.ok none) (StoreOutcome.threw dbDown) = internalErrorResponse ∧
    getCountWith (StoreOutcome.threw dbDown) = internalErrorResponse :=
  focara_c6_store_errors_500 adaBody adaIns dbDown (StoreOutcome.ok adaRow) rfl

/-- C10: the POST outcome and resulting store state depend only on the
`firstName`, `lastName` and `email` entries of the request object — two
bodies agreeing on those three keys produce the same response and the same
final state, so extra keys are stripped and never reach the store. -/
theorem focara_c10_only_picked_fields (s : State)
    (kvs1 kvs2 : List (String × JsonVal))
    (hf : kvs1.lookup "firstName" = kvs2.lookup "firstName")
    (hl : kvs1.lookup "lastName" = kvs2.lookup "lastName")
    (he : kvs1.lookup "email" = kvs2.lookup "email") :
    postWaitlist s (JsonVal.obj kvs1) = postWaitlist s (JsonVal.obj kvs2) := by
  have hparse : insertWaitlistRegistrationSafeParse (JsonVal.obj kvs1)
      = insertWaitlistRegistrationSafeParse (JsonVal.obj kvs2) := by
    simp only [insertWaitlistRegistrationSafeParse, zodStringField]
    rw [hf, hl, he]
  unfold postWaitlist
  rw [hparse]

/-- Witness for C10: the example payload with and without an extra `admin`
key behaves identically on the empty database. -/
theorem focara_c10_only_picked_fields_witness :
    postWaitlist State.empty (JsonVal.obj adaExtraKvs) =
      postWaitlist State.empty (JsonVal.obj adaKvs) :=
  focara_c10_only_picked_fields State.empty adaExtraKvs adaKvs rfl rfl rfl

/-- C2: a payload that passes validation and whose email is not in the store
yields the 201 created response carrying the submitted names and email plus
the generated id, the store gains exactly one row, and the count grows by
exactly one. -/
theorem focara_c2_fresh_email_created (s : State) (body : JsonVal)
    (d : InsertWaitlistRegistration)
    (hp : insertWaitlistRegistrationSafeParse body = Except.ok d)
    (hf : ∀ r ∈ s.regs, r.email ≠ d.email) :
    (postWaitlist s body).1 =
      createdResponse ⟨genId s, d.firstName, d.lastName, d.email, nowOf s⟩ ∧
    (postWaitlist s body).1.status = 201 ∧
    (postWaitlist s body).2.regs =
      s.regs ++ [⟨genId s, d.firstName, d.lastName, d.email, nowOf s⟩] ∧
    getWaitlistCount (postWaitlist s body).2 = getWaitlistCount s + 1 := by
  rw [postWaitlist_fresh s body d hp hf]
  refine ⟨rfl, rfl, rfl, ?_⟩
  simp [getWaitlistCount_eq_length]

/-- Witness for C2: the example payload on the empty database. -/
theorem focara_c2_fresh_email_created_witness :
    (postWaitlist State.empty adaBody).1 =
      createdResponse ⟨genId State.empty, "Ada", "Lovelace", "ada@example.com",
        nowOf State.empty⟩ ∧
    (postWaitlist State.empty adaBody).1.status = 201 ∧
    (postWaitlist State.empty adaBody).2.regs =
      State.empty.regs ++ [⟨genId State.empty, "Ada", "Lovelace",
        "ada@example.com", nowOf State.empty⟩] ∧
    getWaitlistCount (postWaitlist State.empty adaBody).2 =
      getWaitlistCount State.empty + 1 :=
  focara_c2_fresh_email_created State.empty adaBody adaIns rfl
    (by simp [State.empty])

/-- C3: a payload that passes validation and whose email is already
registered — whatever its name fields — yields the 409 conflict response,
no insert happens, the state is unchanged and so is the count. -/
theorem focara_c3_duplicate_conflict (s : State) (body : JsonVal)
    (d : InsertWaitlistRegistration)
    (hp : insertWaitlistRegistrationSafeParse body = Except.ok d)
    (hdup : ∃ r ∈ s.regs, r.email = d.email) :
    postWaitlist s body = (conflictResponse, s) ∧
    (postWaitlist s body).1.status = 409 ∧
    getWaitlistCount (postWaitlist s body).2 = getWaitlistCount s := by
  rw [postWaitlist_dup s body d hp hdup]
  exact ⟨rfl, rfl, rfl⟩

/-- Witness for C3: resubmitting the example email with different name
fields against a store already holding the example row. -/
theorem focara_c3_duplicate_conflict_witness :
    postWaitlist ⟨[], [adaRow]⟩
        (JsonVal.obj [("firstName", JsonVal.str "Grace"),
          ("lastName", JsonVal.str "Hopper"),
          ("email", JsonVal.str "ada@example.com")]) =
      (conflictResponse, ⟨[], [adaRow]⟩) ∧
    (postWaitlist ⟨[], [adaRow]⟩
        (JsonVal.obj [("firstName", JsonVal.str "Grace"),
          ("lastName", JsonVal.str "Hopper"),
          ("email", JsonVal.str "ada@example.com")])).1.status = 409 ∧
    getWaitlistCount (postWaitlist ⟨[], [adaRow]⟩
        (JsonVal.obj [("firstName", JsonVal.str "Grace"),
          ("lastName", JsonVal.str "Hopper"),
          ("email", JsonVal.str "ada@example.com")])).2 =
      getWaitlistCount ⟨[], [adaRow]⟩ :=
  focara_c3_duplicate_conflict ⟨[], [adaRow]⟩
    (JsonVal.obj [("firstName", JsonVal.str "Grace"),
      ("lastName", JsonVal.str "Hopper"),
      ("email", JsonVal.str "ada@example.com")])
    ⟨"Grace", "Hopper", "ada@example.com"⟩ rfl ⟨adaRow, by simp, rfl⟩

/-- C8: every 201 response carries a `registration` object holding exactly
the keys id, firstName, lastName, email of a row of the final store — in
particular the stored `createdAt` timestamp is never echoed. -/
theorem focara_c8_created_shape (s : State) (body : JsonVal)
    (hs : (postWaitlist s body).1.status = 201) :
    ∃ reg : Registration, reg ∈ (postWaitlist s body).2.regs ∧
      (postWaitlist s body).1.body = JsonVal.obj
        [("message", JsonVal.str "Successfully added to waitlist"),
         ("registration", registrationJson reg)] ∧
      (registrationJson reg).objKeys = ["id", "firstName", "lastName", "email"] ∧
      "createdAt" ∉ (registrationJson reg).objKeys := by
  cases hp : insertWaitlistRegistrationSafeParse body with
  | error issues =>
    rw [postWaitlist_invalid s body issues hp] at hs
    simp [validationFailedResponse] at hs
  | ok d =>
    by_cases hdup : ∃ r ∈ s.regs, r.email = d.email
    · rw [postWaitlist_dup s body d hp hdup] at hs
      simp [conflictResponse] at hs
    · push_neg at hdup
      rw [postWaitlist_fresh s body d hp hdup]
      refine ⟨⟨genId s, d.firstName, d.lastName, d.email, nowOf s⟩, ?_, rfl, rfl, ?_⟩
      · simp
      · simp [registrationJson, JsonVal.objKeys]

/-- Witness for C8: the example payload on the empty database. -/
theorem focara_c8_created_shape_witness :
    ∃ reg : Registration, reg ∈ (postWaitlist State.empty adaBody).2.regs ∧
      (postWaitlist State.empty adaBody).1.body = JsonVal.obj
        [("message", JsonVal.str "Successfully added to waitlist"),
         ("registration", registrationJson reg)] ∧
      (registrationJson reg).objKeys = ["id", "firstName", "lastName", "email"] ∧
      "createdAt" ∉ (registrationJson reg).objKeys :=
  focara_c8_created_shape State.empty adaBody rfl

/-- A payload with empty name strings and a non-email string for `email`. -/
def emptyNameBody : JsonVal :=
  JsonVal.obj [("firstName", JsonVal.str ""), ("lastName", JsonVal.str ""),
    ("email", JsonVal.str "not-an-email")]

/-- C4 counterexample: the server-side schema accepts empty `firstName` and
`lastName` strings and a syntactically invalid email — on the empty store the
handler answers 201 and inserts a row, not 400. -/
theorem focara_c4_counterexample :
    (postWaitlist State.empty emptyNameBody).1.status = 201 ∧
    (postWaitlist State.empty emptyNameBody).1.status ≠ 400 ∧
    (postWaitlist State.empty emptyNameBody).2.regs.length = 1 :=
  ⟨rfl, by decide, rfl⟩

/-- The schema rejects an object one of whose three picked entries is missing
or not a string, reporting at least one field-level issue. -/
theorem safeParse_missing_error (kvs : List (String × JsonVal))
    (hmiss : (¬ ∃ str, kvs.lookup "firstName" = some (JsonVal.str str)) ∨
             (¬ ∃ str, kvs.lookup "lastName" = some (JsonVal.str str)) ∨
             (¬ ∃ str, kvs.lookup "email" = some (JsonVal.str str))) :
    ∃ issues, issues ≠ [] ∧
      insertWaitlistRegistrationSafeParse (JsonVal.obj kvs) =
        Except.error issues := by
  cases hrf : zodStringField kvs "firstName" with
  | ok f =>
    cases hrl : zodStringField kvs "lastName" with
    | ok l =>
      cases hre : zodStringField kvs "email" with
      | ok e =>
        exfalso
        rcases hmiss with h | h | h
        · exact h ⟨f, zodStringField_ok kvs "firstName" f hrf⟩
        · exact h ⟨l, zodStringField_ok kvs "lastName" l hrl⟩
        · exact h ⟨e, zodStringField_ok kvs "email" e hre⟩
      | error k =>
        exact ⟨fieldIssues (Except.ok f) ++ fieldIssues (Except.ok l) ++
          fieldIssues (Except.error k), by simp [fieldIssues],
          by simp only [insertWaitlistRegistrationSafeParse, hrf, hrl, hre]⟩
    | error k =>
      cases hre : zodStringField kvs "email" with
      | ok e =>
        exact ⟨fieldIssues (Except.ok f) ++ fieldIssues (Except.error k) ++
          fieldIssues (Except.ok e), by simp [fieldIssues],
          by simp only [insertWaitlistRegistrationSafeParse, hrf, hrl, hre]⟩
      | error k2 =>
        exact ⟨fieldIssues (Except.ok f) ++ fieldIssues (Except.error k) ++
          fieldIssues (Except.error k2), by simp [fieldIssues],
          by simp only [insertWaitlistRegistrationSafeParse, hrf, hrl, hre]⟩
  | error k =>
    cases hrl : zodStringField kvs "lastName" with
    | ok l =>
      cases hre : zodStringField kvs "email" with
      | ok e =>
        exact ⟨fieldIssues (Except.error k) ++ fieldIssues (Except.ok l) ++
          fieldIssues (Except.ok e), by simp [fieldIssues],
          by simp only [insertWaitlistRegistrationSafeParse, hrf, hrl, hre]⟩
      | error k2 =>
        exact ⟨fieldIssues (Except.error k) ++ fieldIssues (Except.ok l) ++
          fieldIssues (Except.error k2), by simp [fieldIssues],
          by simp only [insertWaitlistRegistrationSafeParse, hrf, hrl, hre]⟩
    | error k2 =>
      cases hre : zodStringField kvs "email" with
      | ok e =>
        exact ⟨fieldIssues (Except.error k) ++ fieldIssues (Except.error k2) ++
          fieldIssues (Except.ok e), by simp [fieldIssues],
          by simp only [insertWaitlistRegistrationSafeParse, hrf, hrl, hre]⟩
      | error k3 =>
        exact ⟨fieldIssues (Except.error k) ++ fieldIssues (Except.error k2) ++
          fieldIssues (Except.error k3), by simp [fieldIssues],
          by simp only [insertWaitlistRegistrationSafeParse, hrf, hrl, hre]⟩

/-- C4 (amended): a payload one of whose three fields is missing or not a
string yields the 400 validation-failure response with a nonempty issue list,
no store access, and an unchanged count; empty strings and syntactically
invalid emails, however, pass the server-side schema (the `.min(1)` and
`.email()` refinements exist only in the client). -/
theorem focara_c4_missing_field_400 (s : State)
    (kvs : List (String × JsonVal))
    (hmiss : (¬ ∃ str, kvs.lookup "firstName" = some (JsonVal.str str)) ∨
             (¬ ∃ str, kvs.lookup "lastName" = some (JsonVal.str str)) ∨
             (¬ ∃ str, kvs.lookup "email" = some (JsonVal.str str))) :
    ∃ issues, issues ≠ [] ∧
      postWaitlist s (JsonVal.obj kvs) = (validationFailedResponse issues, s) ∧
      (postWaitlist s (JsonVal.obj kvs)).1.status = 400 ∧
      getWaitlistCount (postWaitlist s (JsonVal.obj kvs)).2 =
        getWaitlistCount s := by
  obtain ⟨issues, hne, hp⟩ := safeParse_missing_error kvs hmiss
  have hrun := postWaitlist_invalid s (JsonVal.obj kvs) issues hp
  refine ⟨issues, hne, hrun, ?_, ?_⟩
  · rw [hrun]; rfl
  · rw [hrun]

/-- Witness for the amended C4: a payload missing the `email` key. -/
theorem focara_c4_missing_field_400_witness :
    ∃ issues, issues ≠ [] ∧
      postWaitlist State.empty (JsonVal.obj
          [("firstName", JsonVal.str "Ada"), ("lastName", JsonVal.str "Lovelace")]) =
        (validationFailedResponse issues, State.empty) ∧
      (postWaitlist State.empty (JsonVal.obj
          [("firstName", JsonVal.str "Ada"),
           ("lastName", JsonVal.str "Lovelace")])).1.status = 400 ∧
      getWaitlistCount (postWaitlist State.empty (JsonVal.obj
          [("firstName", JsonVal.str "Ada"),
           ("lastName", JsonVal.str "Lovelace")])).2 =
        getWaitlistCount State.empty :=
  focara_c4_missing_field_400 State.empty
    [("firstName", JsonVal.str "Ada"), ("lastName", JsonVal.str "Lovelace")]
    (Or.inr (Or.inr (by simp [List.lookup])))

/-- C5 counterexample: when the pre-check misses but the insert throws the
unique-constraint violation (the race window), the handler answers the
generic 500, not the 409 conflict outcome. -/
theorem focara_c5_counterexample :
    (postWaitlistWith adaBody (StoreOutcome.ok none)
        (StoreOutcome.threw uniqueViolation)).status = 500 ∧
    (postWaitlistWith adaBody (StoreOutcome.ok none)
        (StoreOutcome.threw uniqueViolation)).status ≠ 409 :=
  ⟨rfl, by decide⟩

/-- C5 (amended): a unique-constraint violation thrown by the insert after a
missed pre-check is caught by the handler's generic catch and answered with
the same fixed 500 response as any other store error — not with the 409
conflict outcome of the pre-check path. -/
theorem focara_c5_insert_violation_500 (body : JsonVal)
    (d : InsertWaitlistRegistration) (e : DbError)
    (hp : insertWaitlistRegistrationSafeParse body = Except.ok d)
    (_hcode : e.code = "23505") :
    postWaitlistWith body (StoreOutcome.ok none) (StoreOutcome.threw e) =
      internalErrorResponse := by
  simp [postWaitlistWith, hp]

/-- Witness for the amended C5 at the example payload and the constraint
violation itself. -/
theorem focara_c5_insert_violation_500_witness :
    postWaitlistWith adaBody (StoreOutcome.ok none)
        (StoreOutcome.threw uniqueViolation) = internalErrorResponse :=
  focara_c5_insert_violation_500 adaBody adaIns uniqueViolation rfl rfl

/-- One POST request preserves the email-uniqueness invariant: the only
branch that writes pre-checks the email and appends a row with a fresh one. -/
theorem emailsNodup_preserved (s : State) (body : JsonVal)
    (h : emailsNodup s) : emailsNodup (postWaitlist s body).2 := by
  cases hp : insertWaitlistRegistrationSafeParse body with
  | error issues => rw [postWaitlist_invalid s body issues hp]; exact h
  | ok d =>
    by_cases hdup : ∃ r ∈ s.regs, r.email = d.email
    · rw [postWaitlist_dup s body d hp hdup]; exact h
    · push_neg at hdup
      rw [postWaitlist_fresh s body d hp hdup]
      unfold emailsNodup at h ⊢
      simp only [List.map_append, List.map_cons, List.map_nil]
      rw [List.nodup_append]
      refine ⟨h, List.nodup_singleton _, ?_⟩
      intro a ha hb
      simp only [List.mem_singleton] at hb
      subst hb
      simp only [List.mem_map] at ha
      obtain ⟨r, hr, he⟩ := ha
      exact hdup r hr he

/-- The email-uniqueness invariant holds in every state reachable through
the registered routes. -/
theorem reachable_emailsNodup (s : State) (h : Reachable s) : emailsNodup s := by
  induction h with
  | init => simp [emailsNodup, State.empty]
  | post s body _ ih => exact emailsNodup_preserved s body ih
  | countGet s _ ih => exact ih

/-- C1: every reachable store state holds at most one registration row per
email value, and submitting an identical valid payload twice in sequence from
such a state yields 201 then 409, leaving exactly one row with that email. -/
theorem focara_c1_at_most_one_row_per_email (s : State) (h : Reachable s) :
    emailsNodup s ∧
    ∀ body d, insertWaitlistRegistrationSafeParse body = Except.ok d →
      (∀ r ∈ s.regs, r.email ≠ d.email) →
      (postWaitlist s body).1.status = 201 ∧
      (postWaitlist (postWaitlist s body).2 body).1.status = 409 ∧
      ((postWaitlist (postWaitlist s body).2 body).2.regs.filter
          (fun r => r.email == d.email)).length = 1 := by
  refine ⟨reachable_emailsNodup s h, ?_⟩
  intro body d hp hf
  have h1 := postWaitlist_fresh s body d hp hf
  have hmem : (⟨genId s, d.firstName, d.lastName, d.email, nowOf s⟩ :
      Registration) ∈ (postWaitlist s body).2.regs := by
    rw [h1]; simp
  have hdup : ∃ r ∈ (postWaitlist s body).2.regs, r.email = d.email :=
    ⟨_, hmem, rfl⟩
  have h2 := postWaitlist_dup (postWaitlist s body).2 body d hp hdup
  refine ⟨by (rw [h1]; rfl), by (rw [h2]; rfl), ?_⟩
  rw [h2]
  show ((postWaitlist s body).2.regs.filter (fun r => r.email == d.email)).length = 1
  rw [h1]
  show ((s.regs ++ [(⟨genId s, d.firstName, d.lastName, d.email, nowOf s⟩ :
      Registration)]).filter (fun r => r.email == d.email)).length = 1
  rw [List.filter_append]
  have hnil : s.regs.filter (fun r => r.email == d.email) = [] := by
    rw [List.filter_eq_nil_iff]
    intro r hr
    simp only [beq_iff_eq]
    exact hf r hr
  rw [hnil]
  simp

/-- Witness for C1: the example payload submitted twice against the empty
(reachable) database. -/
theorem focara_c1_at_most_one_row_per_email_witness :
    (postWaitlist State.empty adaBody).1.status = 201 ∧
    (postWaitlist (postWaitlist State.empty adaBody).2 adaBody).1.status = 409 ∧
    ((postWaitlist (postWaitlist State.empty adaBody).2 adaBody).2.regs.filter
        (fun r => r.email == adaIns.email)).length = 1 :=
  (focara_c1_at_most_one_row_per_email State.empty Reachable.init).2 adaBody
    adaIns rfl (by simp [State.empty])
